import Mathlib

/-!
Shallow embedding of the pdf-checker repository (LMHgituser/pdf-checker).

The repository contains two variants of a print-file validation tool:
`UPS_File_Check.py` (sizes 4x6/5x7/8x10, DPI check, four-strategy colorant
detection, safe-zone margin check) and `PDF_Check3.py` (Letter-size check,
DPI check, declared-colorant check, overall pass/fail summary).

Numbers are embedded as rationals; Python exceptions are embedded as
explicit failure flags on the input record, with `Except Unit` modelling
an exception escaping a function.  Python string containment (`pat in s`)
is embedded as `strContains`.
-/

namespace PdfChecker

/-- Does the character list start with the given pattern list. -/
def charsStartWith : List Char → List Char → Bool
  | _, [] => true
  | [], _ :: _ => false
  | c :: cs, p :: ps => c == p && charsStartWith cs ps

/-- Does the character list contain the pattern list as a contiguous run. -/
def charsContain : List Char → List Char → Bool
  | [], pat => pat.isEmpty
  | c :: cs, pat => charsStartWith (c :: cs) pat || charsContain cs pat

/-- Embedding of the Python substring test `pat in s`. -/
def strContains (s pat : String) : Bool :=
  charsContain s.data pat.data

namespace UPSFileCheck

/-- Embedding of `size_matches` (UPS_File_Check.py lines 11-20): check if
(w, h) matches any accepted size in any orientation, within tolerance. -/
def size_matches (actual_w actual_h : ℚ) (accepted_sizes : List (ℚ × ℚ))
    (tolerance : ℚ) : Bool :=
  accepted_sizes.any fun a =>
    (decide (|actual_w - a.1| ≤ tolerance) && decide (|actual_h - a.2| ≤ tolerance))
      || (decide (|actual_w - a.2| ≤ tolerance) && decide (|actual_h - a.1| ≤ tolerance))

/-- Embedding of `ACCEPTED_SIZES` (UPS_File_Check.py lines 22-26). -/
def ACCEPTED_SIZES : List (ℚ × ℚ) := [(4, 6), (5, 7), (8, 10)]

/-- Embedding of `MIN_DPI = 300` (UPS_File_Check.py line 28). -/
def MIN_DPI : ℚ := 300

/-- Embedding of `SAFE_MARGIN = 0.00001 * 72` (UPS_File_Check.py line 29);
the source comment calls it `1/8 inch in points`. -/
def SAFE_MARGIN : ℚ := 0.00001 * 72

/-- Embedding of `ACCEPTED_COLOR` (UPS_File_Check.py line 30). -/
def ACCEPTED_COLOR : List String := ["DeviceCMYK", "DeviceRGB", "CMYK", "RGB"]

/-- Bounding rectangle in page coordinates (points). -/
structure Rect where
  x0 : ℚ
  y0 : ℚ
  x1 : ℚ
  y1 : ℚ

/-- One text block as reported by `page.get_text("blocks")`: its bounding
box plus its text content. -/
structure TextBlock where
  box : Rect
  text : String

/-- One page as seen by `check_margin`: page rectangle dimensions, text
blocks, and placement rectangles of embedded images. -/
structure MarginPage where
  width : ℚ
  height : ℚ
  blocks : List TextBlock
  imageRects : List Rect

/-- The condition tested by both `if` statements inside `check_margin`
(UPS_File_Check.py lines 168-173 and 179-184): some coordinate strictly
crosses the margin band. -/
def box_crosses_margin (m w h : ℚ) (r : Rect) : Bool :=
  decide (r.x0 < m) || decide (r.y0 < m)
    || decide (r.x1 > w - m) || decide (r.y1 > h - m)

/-- Body of `check_margin` (UPS_File_Check.py lines 164-187) with the margin
as an explicit parameter: collect one message per text block and one per
image placement rectangle whose box crosses the margin band. -/
def check_margin_core (m : ℚ) (page : MarginPage) (page_number : ℕ) : List String :=
  (page.blocks.filter fun b =>
      box_crosses_margin m page.width page.height b.box).map
    (fun b => "Text too close to edge on page " ++ toString page_number
      ++ ": " ++ b.text.take 30)
  ++ (page.imageRects.filter
      (box_crosses_margin m page.width page.height)).map
    (fun _ => "Image too close to edge on page " ++ toString page_number)

/-- Embedding of `check_margin` as the source runs it, reading the module
constant `SAFE_MARGIN`. -/
def check_margin (page : MarginPage) (page_number : ℕ) : List String :=
  check_margin_core SAFE_MARGIN page page_number

end UPSFileCheck

/-- Embedding of `pil_img.info.get("dpi", (72, 72))`: the resolution metadata
of a decoded raster, defaulting to 72x72 when absent (`none`). -/
def dpi_of (meta : Option (ℚ × ℚ)) : ℚ × ℚ :=
  meta.getD (72, 72)

/-- The per-sample failure test of the embedded-raster DPI loop
(UPS_File_Check.py line 222, PDF_Check3.py line 130):
`dpi[0] < MIN_DPI or dpi[1] < MIN_DPI` with MIN_DPI = 300. -/
def embedded_dpi_fails (meta : Option (ℚ × ℚ)) : Bool :=
  decide ((dpi_of meta).1 < 300) || decide ((dpi_of meta).2 < 300)

/-- The low-resolution collection loop shared by both variants
(UPS_File_Check.py lines 215-223, PDF_Check3.py lines 119-131): a document is
a per-page list of embedded rasters, each carrying optional DPI metadata; the
result pairs 1-based page numbers with the failing DPI values. -/
def low_res (doc : List (List (Option (ℚ × ℚ)))) : List (ℕ × (ℚ × ℚ)) :=
  (doc.enum.map fun pi =>
    ((pi.2.filter embedded_dpi_fails).map fun meta => (pi.1 + 1, dpi_of meta))).flatten

/-- The standalone-image DPI test of `analyze_image`
(UPS_File_Check.py line 313): `dpi[0] < MIN_DPI` — only the horizontal
component is compared. -/
def analyze_image_dpi_fails (meta : Option (ℚ × ℚ)) : Bool :=
  decide ((dpi_of meta).1 < 300)

/-- The three distinct outcomes a resolution-check reporting branch can
take: low-resolution warnings, the all-images-ok success message, or the
informational no-images message. -/
inductive ResOutcome where
  | lowRes
  | allOk
  | noImages
deriving DecidableEq

/-- The kind of message box a report line is rendered with, following the
`type` argument of `color_box` and `st.info` in the source. -/
inductive BoxKind where
  | success
  | warning
  | error
  | info
deriving DecidableEq

namespace UPSFileCheck

/-- Abstract view of one parsed document as the colorant-detection code of
`analyze_pdf` (UPS_File_Check.py lines 237-263) consumes it.  Each Python
exception site is modelled by an explicit failure field: `openFails` is
`pikepdf.open` raising, `declaredFails` is an exception inside the inline
Method-1 resource walk, `defaultFails` / `streamFails` are exceptions caught
inside `detect_default_color_space` / `detect_color_from_streams`, and
`imagesFailAfter = some k` is an exception inside `detect_color_from_images`
after k images were decoded. -/
structure ColorDoc where
  openFails : Bool
  declared : List String
  declaredFails : Bool
  hasDefaultRGB : Bool
  hasDefaultCMYK : Bool
  defaultFails : Bool
  streamFails : Bool
  pageTexts : List String
  imageModes : List String
  imagesFailAfter : Option ℕ

/-- Embedding of `detect_default_color_space` (UPS_File_Check.py lines
105-115): on an internal exception the `except: pass` makes it return None;
otherwise RGB if /DefaultRGB is declared, else CMYK if /DefaultCMYK is. -/
def detect_default_color_space (d : ColorDoc) : Option String :=
  if d.defaultFails then none
  else if d.hasDefaultRGB then some "RGB"
  else if d.hasDefaultCMYK then some "CMYK"
  else none

/-- The RGB operator test of `detect_color_from_streams`
(UPS_File_Check.py line 123): `" rg" in text or " RG" in text`. -/
def hasRGBToken (t : String) : Bool :=
  strContains t " rg" || strContains t " RG"

/-- The CMYK operator test of `detect_color_from_streams`
(UPS_File_Check.py line 125): `" k" in text or " K" in text`. -/
def hasCMYKToken (t : String) : Bool :=
  strContains t " k" || strContains t " K"

/-- The page loop of `detect_color_from_streams` (UPS_File_Check.py lines
121-126): for each page in order, return RGB if the page has an RGB token,
else CMYK if it has a CMYK token, else continue with the next page. -/
def stream_scan : List String → Option String
  | [] => none
  | t :: rest =>
    if hasRGBToken t then some "RGB"
    else if hasCMYKToken t then some "CMYK"
    else stream_scan rest

/-- Embedding of `detect_color_from_streams` (UPS_File_Check.py lines
118-129): None when the scan raises internally, else the page-loop result. -/
def detect_color_from_streams (d : ColorDoc) : Option String :=
  if d.streamFails then none else stream_scan d.pageTexts

/-- Embedding of `detect_color_from_images` (UPS_File_Check.py lines
132-144): the `modes` set is created before the `try`, so an exception after
k images returns the modes collected so far, not the empty set. -/
def detect_color_from_images (d : ColorDoc) : List String :=
  match d.imagesFailAfter with
  | none => d.imageModes
  | some k => d.imageModes.take k

/-- Embedding of the color-mode section of `analyze_pdf` (UPS_File_Check.py
lines 237-263).  The whole section sits inside one `try`: an exception from
`pikepdf.open` or from the inline Method-1 resource walk jumps to the
`except` handler (modelled as `Except.error ()`), skipping Methods 2-4.
Otherwise `color_spaces` accumulates, in source order, the declared names,
the optional default-colorspace label, the optional stream label, and the
embedded-image modes. -/
def ups_color_spaces (d : ColorDoc) : Except Unit (Finset String) :=
  if d.openFails then Except.error ()
  else if d.declaredFails then Except.error ()
  else
    let s1 : Finset String := d.declared.foldl (fun s c => insert c s) ∅
    let s2 := match detect_default_color_space d with
      | some c => insert c s1
      | none => s1
    let s3 := match detect_color_from_streams d with
      | some c => insert c s2
      | none => s2
    let s4 := (detect_color_from_images d).foldl (fun s c => insert c s) s3
    Except.ok s4

/-- The DPI reporting branch of `analyze_pdf` (UPS_File_Check.py lines
225-229) has only two outcomes: warning boxes when `low_res` is nonempty,
else the success box — there is no separate no-images outcome. -/
def ups_res_outcome (doc : List (List (Option (ℚ × ℚ)))) : ResOutcome :=
  if low_res doc ≠ [] then ResOutcome.lowRes else ResOutcome.allOk

/-- The page-size verdict of `analyze_pdf` (UPS_File_Check.py lines 203-211):
read the first page mediabox, convert to inches, and match against
ACCEPTED_SIZES with the default tolerance 0.05.  Pages are (width, height)
mediabox pairs in points; an empty document raises (IndexError on
`pages[0]`), modelled as `none`. -/
def ups_size_verdict : List (ℚ × ℚ) → Option Bool
  | [] => none
  | p :: _ => some (size_matches (p.1 / 72) (p.2 / 72) ACCEPTED_SIZES 0.05)

end UPSFileCheck

namespace PDFCheck3

/-- Embedding of `PRINTER_WIDTH = 8.5` (PDF_Check3.py line 9). -/
def PRINTER_WIDTH : ℚ := 8.5

/-- Embedding of `PRINTER_HEIGHT = 11` (PDF_Check3.py line 10). -/
def PRINTER_HEIGHT : ℚ := 11

/-- Embedding of `ACCEPTED_COLOR` (PDF_Check3.py line 12). -/
def ACCEPTED_COLOR : List String := ["DeviceCMYK", "DeviceRGB"]

/-- The page-size test of `analyze_pdf` (PDF_Check3.py lines 112 and 176):
`abs(width - PRINTER_WIDTH) < 0.01 and abs(height - PRINTER_HEIGHT) < 0.01`
on the first page dimensions in inches.  There is no orientation swap. -/
def pdf3_size_ok (w h : ℚ) : Bool :=
  decide (|w - PRINTER_WIDTH| < 0.01) && decide (|h - PRINTER_HEIGHT| < 0.01)

/-- The page-size verdict of `analyze_pdf` (PDF_Check3.py lines 106-112):
read the first page mediabox, convert to inches, compare against Letter.
An empty document raises (IndexError on `pages[0]`), modelled as `none`. -/
def pdf3_size_verdict : List (ℚ × ℚ) → Option Bool
  | [] => none
  | p :: _ => some (pdf3_size_ok (p.1 / 72) (p.2 / 72))

/-- The DPI reporting branch of `analyze_pdf` (PDF_Check3.py lines 134-141):
warning boxes when `low_res_images` is nonempty; otherwise the success box
when `all_dpi` is nonempty (some image exists); otherwise the distinct
informational no-images message. -/
def pdf3_res_outcome (doc : List (List (Option (ℚ × ℚ)))) : ResOutcome :=
  if low_res doc ≠ [] then ResOutcome.lowRes
  else if doc.flatten ≠ [] then ResOutcome.allOk
  else ResOutcome.noImages

/-- Abstract view of one input to `analyze_pdf` (PDF_Check3.py lines
96-187).  `widthPts`/`heightPts` are the first page mediabox dimensions in
points and `restPages` the later pages; `imageDpis` are the per-page raster
DPI metadata; `colorOpenFails` models `pikepdf.open` raising (before the
local variable `color_spaces` is assigned), `colorScanFailsAfter = some k`
models an exception inside the resource walk after k names were collected
(after `color_spaces` was assigned). -/
structure Pdf3Input where
  widthPts : ℚ
  heightPts : ℚ
  restPages : List (ℚ × ℚ)
  imageDpis : List (List (Option (ℚ × ℚ)))
  colorOpenFails : Bool
  colorNames : List String
  colorScanFailsAfter : Option ℕ

/-- The declared colorant names actually collected by the resource walk of
PDF_Check3.py lines 148-158: all of them when no exception occurs, the first
k when the walk raises after k names. -/
def collected_color_names (d : Pdf3Input) : List String :=
  match d.colorScanFailsAfter with
  | none => d.colorNames
  | some k => d.colorNames.take k

/-- The filter on line 162 of PDF_Check3.py:
`[c for c in color_spaces if c not in ACCEPTED_COLOR]`. -/
def pdf3_invalid_colors (cs : List String) : List String :=
  cs.filter fun c => decide (c ∉ ACCEPTED_COLOR)

/-- The item summary produced by the Overall Validation Summary section
(PDF_Check3.py lines 173-187). -/
structure Pdf3Report where
  sizeOk : Bool
  lowResImages : List (ℕ × (ℚ × ℚ))
  resOutcome : ResOutcome
  colorSpaces : List String
  passed : Bool

/-- The Overall Validation Summary section of `analyze_pdf` (PDF_Check3.py
lines 173-187), reached when the local `color_spaces` was assigned: `passed`
starts true and is cleared by a failed size test (line 176), a nonempty
low-resolution list (line 178), or — when the collected colorant name set is
nonempty — some collected name outside ACCEPTED_COLOR (lines 180-182). -/
def pdf3_summary (d : Pdf3Input) : Pdf3Report :=
  let sizeOk := pdf3_size_ok (d.widthPts / 72) (d.heightPts / 72)
  let lowRes := low_res d.imageDpis
  let cs := collected_color_names d
  { sizeOk := sizeOk, lowResImages := lowRes,
    resOutcome := pdf3_res_outcome d.imageDpis,
    colorSpaces := cs,
    passed := sizeOk && lowRes.isEmpty
      && (cs.isEmpty || (pdf3_invalid_colors cs).isEmpty) }

/-- Embedding of `analyze_pdf` (PDF_Check3.py lines 96-187).  When
`pikepdf.open` raises, the `except` handler catches it, but the summary code
at line 180 then reads the never-assigned local `color_spaces`, raising an
unhandled NameError — modelled as `Except.error ()` (no summary produced).
Otherwise the summary of lines 173-187 is produced. -/
def analyze_pdf3 (d : Pdf3Input) : Except Unit Pdf3Report :=
  if d.colorOpenFails then Except.error ()
  else Except.ok (pdf3_summary d)

/-- The condition reports `analyze_pdf` renders before its summary, as
(category, box kind) pairs with the box kind taken verbatim from the source
calls: size mismatch is a warning box (line 115), each low-resolution raster
a warning box (line 136), the all-ok and no-images resolution messages a
success box and an info message (lines 139-141), each unsupported colorant a
warning box (line 165), the no-colorant and all-valid cases info and success
(lines 167-169), and a colorant-section exception an error box (line 171,
also skipping the colorant reporting of lines 160-169). -/
def pdf3_issue_boxes (d : Pdf3Input) : List (String × BoxKind) :=
  let sizeOk := pdf3_size_ok (d.widthPts / 72) (d.heightPts / 72)
  let lowRes := low_res d.imageDpis
  (if sizeOk then [("size", BoxKind.success)] else [("size", BoxKind.warning)])
  ++ (if lowRes ≠ [] then lowRes.map fun _ => ("resolution", BoxKind.warning)
      else if d.imageDpis.flatten ≠ [] then [("resolution", BoxKind.success)]
      else [("resolution", BoxKind.info)])
  ++ (if d.colorOpenFails ∨ d.colorScanFailsAfter ≠ none then
        [("colorant", BoxKind.error)]
      else if d.colorNames ≠ [] then
        (if pdf3_invalid_colors d.colorNames ≠ [] then
          (pdf3_invalid_colors d.colorNames).map fun _ => ("colorant", BoxKind.warning)
        else [("colorant", BoxKind.success)])
      else [("colorant", BoxKind.info)])

end PDFCheck3

/-- Concrete colorant-detection input whose declared-resource walk (strategy
1) raises while the default-colorspace and image-mode strategies would have
contributions. -/
def strategy1FailDoc : UPSFileCheck.ColorDoc :=
  { openFails := false, declared := [], declaredFails := true,
    hasDefaultRGB := true, hasDefaultCMYK := false, defaultFails := false,
    streamFails := false, pageTexts := [], imageModes := ["CMYK"],
    imagesFailAfter := none }

/-- Concrete colorant-detection input with no failing strategy. -/
def sampleColorDoc : UPSFileCheck.ColorDoc :=
  { openFails := false, declared := ["DeviceRGB"], declaredFails := false,
    hasDefaultRGB := false, hasDefaultCMYK := true, defaultFails := false,
    streamFails := false, pageTexts := ["0.2 0.3 0.4 rg"], imageModes := ["L"],
    imagesFailAfter := none }

/-- Concrete PDF_Check3 document: first page 8x10 inches, no rasters, no
colorant declarations, no failures. -/
def sizeMismatchDoc : PDFCheck3.Pdf3Input :=
  { widthPts := 576, heightPts := 720, restPages := [], imageDpis := [],
    colorOpenFails := false, colorNames := [], colorScanFailsAfter := none }

/-- Concrete PDF_Check3 document: Letter-size first page, no rasters, one
accepted declared colorant, no failures. -/
def noRasterLetterDoc : PDFCheck3.Pdf3Input :=
  { widthPts := 612, heightPts := 792, restPages := [], imageDpis := [],
    colorOpenFails := false, colorNames := ["DeviceRGB"],
    colorScanFailsAfter := none }

/-- Concrete PDF_Check3 document whose pikepdf open raises. -/
def openFailDoc : PDFCheck3.Pdf3Input :=
  { widthPts := 612, heightPts := 792, restPages := [], imageDpis := [],
    colorOpenFails := true, colorNames := [], colorScanFailsAfter := none }

/-- Concrete PDF_Check3 document whose colorant resource walk raises after
zero names were collected, after the local color_spaces was assigned. -/
def scanFailDoc : PDFCheck3.Pdf3Input :=
  { widthPts := 612, heightPts := 792, restPages := [], imageDpis := [],
    colorOpenFails := false, colorNames := ["DeviceRGB"],
    colorScanFailsAfter := some 0 }

end PdfChecker

namespace PdfChecker

/-- C1: for every measured size (w,h), accepted size list and tolerance t, the
size matcher returns true iff some accepted entry (aw,ah) satisfies either
(|w-aw| <= t and |h-ah| <= t) or (|w-ah| <= t and |h-aw| <= t); in particular
the rotated measurement (11, 8.5) matches an accepted (8.5, 11) entry. -/
theorem size_matches_iff_orientation (w h tol : ℚ) (accepted : List (ℚ × ℚ)) :
    (UPSFileCheck.size_matches w h accepted tol = true ↔
      ∃ a ∈ accepted,
        (|w - a.1| ≤ tol ∧ |h - a.2| ≤ tol) ∨ (|w - a.2| ≤ tol ∧ |h - a.1| ≤ tol))
    ∧ UPSFileCheck.size_matches 11 8.5 [((8.5 : ℚ), 11)] 0.01 = true := by
  constructor
  · simp [UPSFileCheck.size_matches, List.any_eq_true]
  · norm_num [UPSFileCheck.size_matches]

/-- C2: the margin constant the checker actually uses is 0.00001 * 72 =
9/12500 points, not the 9 points of a 1/8 inch margin, and consequently a
text box at x0 = 5 on a 612x792 point page, well inside the claimed 9-point
band, is not reported as a margin violation. -/
theorem safe_margin_is_near_zero :
    UPSFileCheck.SAFE_MARGIN = 9 / 12500
    ∧ UPSFileCheck.SAFE_MARGIN ≠ 9
    ∧ UPSFileCheck.check_margin
        { width := 612, height := 792,
          blocks := [{ box := { x0 := 5, y0 := 100, x1 := 100, y1 := 120 },
                       text := "hello" }],
          imageRects := [] } 1 = [] := by
  refine ⟨by norm_num [UPSFileCheck.SAFE_MARGIN], by norm_num [UPSFileCheck.SAFE_MARGIN], ?_⟩
  norm_num [UPSFileCheck.check_margin, UPSFileCheck.check_margin_core,
    UPSFileCheck.box_crosses_margin, UPSFileCheck.SAFE_MARGIN, List.filter]

/-- C3 counterexample: a text box exactly touching the inset boundary (zero
distance) is not reported as a margin violation — neither by `check_margin`
with the constant the code uses (box at x0 = SAFE_MARGIN = 9/12500), nor by
the same margin logic run at the nominal 9-point margin (box at x0 = 9). -/
theorem touching_box_not_reported :
    UPSFileCheck.check_margin
        { width := 612, height := 792,
          blocks := [{ box := { x0 := 9 / 12500, y0 := 100, x1 := 100, y1 := 120 },
                       text := "edge" }],
          imageRects := [] } 1 = []
    ∧ UPSFileCheck.check_margin_core 9
        { width := 612, height := 792,
          blocks := [{ box := { x0 := 9, y0 := 9, x1 := 603, y1 := 783 },
                       text := "edge" }],
          imageRects := [] } 1 = [] := by
  constructor <;>
    norm_num [UPSFileCheck.check_margin, UPSFileCheck.check_margin_core,
      UPSFileCheck.box_crosses_margin, UPSFileCheck.SAFE_MARGIN, List.filter]

/-- C3 amended: the margin test is a strict-crossing test — a box is left
unflagged iff it is contained in the safe rectangle in the closed sense
(touching the inset boundary allowed), and a page yields no issues iff no
text block and no image rectangle strictly crosses the margin band. -/
theorem margin_test_is_strict_crossing (m w h : ℚ) (r : UPSFileCheck.Rect)
    (page : UPSFileCheck.MarginPage) (n : ℕ) :
    (UPSFileCheck.box_crosses_margin m w h r = false ↔
      (m ≤ r.x0 ∧ m ≤ r.y0 ∧ r.x1 ≤ w - m ∧ r.y1 ≤ h - m))
    ∧ (UPSFileCheck.check_margin_core m page n = [] ↔
      ((∀ b ∈ page.blocks,
          UPSFileCheck.box_crosses_margin m page.width page.height b.box = false)
        ∧ ∀ q ∈ page.imageRects,
            UPSFileCheck.box_crosses_margin m page.width page.height q = false)) := by
  constructor
  · simp only [UPSFileCheck.box_crosses_margin, Bool.or_eq_false_iff,
      decide_eq_false_iff_not, not_lt]
    tauto
  · simp [UPSFileCheck.check_margin_core, List.filter_eq_nil_iff]

/-- C4 counterexample: a raster sample with 300x100 DPI has vertical DPI
below 300, and the embedded-raster check fails it, but the standalone-image
check of `analyze_image` compares only the horizontal component and passes
it — the standalone path does not implement the claimed either-axis rule. -/
theorem image_vertical_dpi_ignored :
    ((dpi_of (some (300, 100))).2 < 300)
    ∧ embedded_dpi_fails (some (300, 100)) = true
    ∧ analyze_image_dpi_fails (some (300, 100)) = false := by
  refine ⟨by norm_num [dpi_of], ?_, ?_⟩ <;>
    norm_num [embedded_dpi_fails, analyze_image_dpi_fails, dpi_of]

/-- C4 amended: an embedded-raster sample fails iff its horizontal or its
vertical DPI is strictly below 300; a standalone image fails iff its
horizontal DPI alone is strictly below 300; missing resolution metadata is
read as 72x72 and therefore fails both paths. -/
theorem resolution_check_characterization :
    (∀ meta, embedded_dpi_fails meta = true ↔
      ((dpi_of meta).1 < 300 ∨ (dpi_of meta).2 < 300))
    ∧ (∀ meta, analyze_image_dpi_fails meta = true ↔ (dpi_of meta).1 < 300)
    ∧ dpi_of none = (72, 72)
    ∧ embedded_dpi_fails none = true
    ∧ analyze_image_dpi_fails none = true := by
  refine ⟨fun meta => ?_, fun meta => ?_, rfl, ?_, ?_⟩
  · simp [embedded_dpi_fails]
  · simp [analyze_image_dpi_fails]
  · norm_num [embedded_dpi_fails, dpi_of]
  · norm_num [analyze_image_dpi_fails, dpi_of]

/-- C5 counterexample: a failure inside strategy 1 (the inline
declared-resource walk) escapes to the section-level except handler: the
whole colorant check aborts with an error and no colorant set is produced,
even though strategy 2 would contribute RGB and strategy 4 CMYK. -/
theorem strategy1_failure_aborts_colorant_check :
    UPSFileCheck.ups_color_spaces strategy1FailDoc = Except.error ()
    ∧ UPSFileCheck.detect_default_color_space strategy1FailDoc = some "RGB"
    ∧ UPSFileCheck.detect_color_from_images strategy1FailDoc = ["CMYK"] :=
  ⟨rfl, rfl, rfl⟩

theorem foldl_insert_eq_union (l : List String) (s : Finset String) :
    l.foldl (fun acc c => insert c acc) s = s ∪ l.toFinset := by
  induction l generalizing s with
  | nil => simp
  | cons c cs ih =>
    rw [List.foldl_cons, ih, List.toFinset_cons]
    ext x
    simp
    try tauto

/-- C5 amended: when neither opening the document nor strategy 1 fails, the
final colorant set is the union of the contributions of the four strategies, where
strategies 2 and 3 contribute nothing on their own internal failure and
strategy 4 contributes the modes read before its failure point; but a
failure in strategy 1 aborts the whole check (see the counterexample). -/
theorem colorant_union_when_strategy1_succeeds (d : UPSFileCheck.ColorDoc)
    (h1 : d.openFails = false) (h2 : d.declaredFails = false) :
    UPSFileCheck.ups_color_spaces d = Except.ok
      (d.declared.toFinset
        ∪ (UPSFileCheck.detect_default_color_space d).toFinset
        ∪ (UPSFileCheck.detect_color_from_streams d).toFinset
        ∪ (UPSFileCheck.detect_color_from_images d).toFinset) := by
  unfold UPSFileCheck.ups_color_spaces
  rw [h1, h2]
  simp only [Bool.false_eq_true, if_false]
  congr 1
  rcases UPSFileCheck.detect_default_color_space d with _ | c <;>
    rcases UPSFileCheck.detect_color_from_streams d with _ | c2 <;>
      simp [foldl_insert_eq_union] <;> (ext x; simp; try tauto)

/-- Witness for the amended C5 theorem at a concrete input. -/
theorem colorant_union_witness :
    UPSFileCheck.ups_color_spaces sampleColorDoc = Except.ok
      (sampleColorDoc.declared.toFinset
        ∪ (UPSFileCheck.detect_default_color_space sampleColorDoc).toFinset
        ∪ (UPSFileCheck.detect_color_from_streams sampleColorDoc).toFinset
        ∪ (UPSFileCheck.detect_color_from_images sampleColorDoc).toFinset) :=
  colorant_union_when_strategy1_succeeds sampleColorDoc rfl rfl

/-- C9 counterexample: with page texts ["0 0 0 1 K", "1 0 0 rg"] the second
page contains an RGB operator token and the first page only a CMYK token,
yet the content-stream scan returns CMYK, because it scans page by page and
the first page containing any token wins — RGB is not given document-wide
priority over CMYK. -/
theorem cmyk_page_beats_later_rgb_page :
    UPSFileCheck.hasRGBToken "1 0 0 rg" = true
    ∧ UPSFileCheck.hasRGBToken "0 0 0 1 K" = false
    ∧ UPSFileCheck.detect_color_from_streams
        { openFails := false, declared := [], declaredFails := false,
          hasDefaultRGB := false, hasDefaultCMYK := false, defaultFails := false,
          streamFails := false, pageTexts := ["0 0 0 1 K", "1 0 0 rg"],
          imageModes := [], imagesFailAfter := none } = some "CMYK" :=
  ⟨rfl, rfl, rfl⟩

theorem stream_scan_trichotomy (l : List String) :
    UPSFileCheck.stream_scan l = none
      ∨ UPSFileCheck.stream_scan l = some "RGB"
      ∨ UPSFileCheck.stream_scan l = some "CMYK" := by
  induction l with
  | nil => exact Or.inl rfl
  | cons t rest ih =>
    simp only [UPSFileCheck.stream_scan]
    split
    · simp
    · split
      · simp
      · exact ih

/-- C9 amended: the scan walks pages in order; pages containing neither
token are skipped; on the first page containing a token, RGB tokens are
checked before CMYK tokens and that page alone determines the label; and the
scan contributes at most one label, none, RGB or CMYK. -/
theorem stream_scan_first_token_page (pre : List String) (t : String)
    (rest : List String)
    (h : ∀ p ∈ pre, UPSFileCheck.hasRGBToken p = false
      ∧ UPSFileCheck.hasCMYKToken p = false) :
    UPSFileCheck.stream_scan (pre ++ t :: rest) =
      (if UPSFileCheck.hasRGBToken t then some "RGB"
       else if UPSFileCheck.hasCMYKToken t then some "CMYK"
       else UPSFileCheck.stream_scan rest)
    ∧ (UPSFileCheck.stream_scan (pre ++ t :: rest) = none
       ∨ UPSFileCheck.stream_scan (pre ++ t :: rest) = some "RGB"
       ∨ UPSFileCheck.stream_scan (pre ++ t :: rest) = some "CMYK") := by
  refine ⟨?_, stream_scan_trichotomy _⟩
  induction pre with
  | nil => simp [UPSFileCheck.stream_scan]
  | cons p ps ih =>
    have hp := h p (List.mem_cons_self p ps)
    simp only [List.cons_append, UPSFileCheck.stream_scan, hp.1, hp.2,
      Bool.false_eq_true, if_false]
    exact ih fun q hq => h q (List.mem_cons_of_mem p hq)

/-- Witness for the amended C9 theorem at a concrete input. -/
theorem stream_scan_first_token_page_witness :
    UPSFileCheck.stream_scan (["hello"] ++ "0 0 0 1 k" :: []) =
      (if UPSFileCheck.hasRGBToken "0 0 0 1 k" then some "RGB"
       else if UPSFileCheck.hasCMYKToken "0 0 0 1 k" then some "CMYK"
       else UPSFileCheck.stream_scan [])
    ∧ (UPSFileCheck.stream_scan (["hello"] ++ "0 0 0 1 k" :: []) = none
       ∨ UPSFileCheck.stream_scan (["hello"] ++ "0 0 0 1 k" :: []) = some "RGB"
       ∨ UPSFileCheck.stream_scan (["hello"] ++ "0 0 0 1 k" :: []) = some "CMYK") :=
  stream_scan_first_token_page ["hello"] "0 0 0 1 k" []
    (by intro p hp; simp only [List.mem_singleton] at hp; subst hp; exact ⟨rfl, rfl⟩)

/-- C6: when pikepdf open raises inside the colorant section, the except
handler catches it but the summary then reads the never-assigned local
color_spaces and the analysis dies with an unhandled NameError: no item
summary is produced.  When the failure happens after color_spaces was
assigned, the summary is produced — the containment fails exactly on the
open-failure path. -/
theorem color_open_failure_kills_summary :
    PDFCheck3.analyze_pdf3 openFailDoc = Except.error ()
    ∧ PDFCheck3.analyze_pdf3 scanFailDoc = Except.ok
        { sizeOk := true, lowResImages := [], resOutcome := ResOutcome.noImages,
          colorSpaces := [], passed := true } := by
  refine ⟨rfl, ?_⟩
  norm_num [PDFCheck3.analyze_pdf3, PDFCheck3.pdf3_summary, PDFCheck3.pdf3_size_ok,
    PDFCheck3.pdf3_res_outcome, PDFCheck3.collected_color_names,
    PDFCheck3.pdf3_invalid_colors, low_res, scanFailDoc,
    PDFCheck3.PRINTER_WIDTH, PDFCheck3.PRINTER_HEIGHT]

/-- C7 counterexample: a document whose only defect is its page size (8x10
inches instead of Letter) gets every condition reported at warning or
informational severity — the issue list holds zero error-severity entries —
yet the summary sets passed to false. -/
theorem warning_only_conditions_fail_item :
    (PDFCheck3.pdf3_issue_boxes sizeMismatchDoc).filter
        (fun i => decide (i.2 = BoxKind.error)) = []
    ∧ PDFCheck3.pdf3_issue_boxes sizeMismatchDoc =
        [("size", BoxKind.warning), ("resolution", BoxKind.info),
         ("colorant", BoxKind.info)]
    ∧ (PDFCheck3.pdf3_summary sizeMismatchDoc).passed = false := by
  have hb : PDFCheck3.pdf3_issue_boxes sizeMismatchDoc =
      [("size", BoxKind.warning), ("resolution", BoxKind.info),
       ("colorant", BoxKind.info)] := by
    norm_num [PDFCheck3.pdf3_issue_boxes, PDFCheck3.pdf3_size_ok, low_res,
      PDFCheck3.pdf3_invalid_colors, sizeMismatchDoc,
      PDFCheck3.PRINTER_WIDTH, PDFCheck3.PRINTER_HEIGHT]
  refine ⟨by rw [hb]; rfl, hb, ?_⟩
  norm_num [PDFCheck3.pdf3_summary, PDFCheck3.pdf3_size_ok,
    PDFCheck3.collected_color_names, low_res, sizeMismatchDoc,
    PDFCheck3.PRINTER_WIDTH, PDFCheck3.PRINTER_HEIGHT]

/-- C7 amended: the passed flag of the summary is computed directly from the
three blocking conditions — the size test, the low-resolution list, and
unsupported collected colorant names — and is true iff none of them holds;
the code reports these conditions at warning severity, and the size and
resolution categories never render an error-severity box, so passed is not a
function of error-severity issues. -/
theorem pdf3_passed_characterization (d : PDFCheck3.Pdf3Input) :
    ((PDFCheck3.pdf3_summary d).passed = true ↔
      (PDFCheck3.pdf3_size_ok (d.widthPts / 72) (d.heightPts / 72) = true
        ∧ low_res d.imageDpis = []
        ∧ (PDFCheck3.collected_color_names d = []
            ∨ PDFCheck3.pdf3_invalid_colors (PDFCheck3.collected_color_names d) = [])))
    ∧ ("size", BoxKind.error) ∉ PDFCheck3.pdf3_issue_boxes d
    ∧ ("resolution", BoxKind.error) ∉ PDFCheck3.pdf3_issue_boxes d := by
  refine ⟨?_, ?_, ?_⟩
  · simp [PDFCheck3.pdf3_summary, List.isEmpty_iff, and_assoc]
  · simp only [PDFCheck3.pdf3_issue_boxes, List.mem_append, not_or]
    refine ⟨⟨?_, ?_⟩, ?_⟩ <;> (split_ifs <;> simp [List.mem_map])
  · simp only [PDFCheck3.pdf3_issue_boxes, List.mem_append, not_or]
    refine ⟨⟨?_, ?_⟩, ?_⟩ <;> (split_ifs <;> simp [List.mem_map])

/-- C8 counterexample: the UPS variant reports an item with zero embedded
rasters with exactly the same success outcome as an item whose rasters all
pass — it emits no distinct informational no-raster signal. -/
theorem ups_no_raster_reports_pass :
    UPSFileCheck.ups_res_outcome [] = ResOutcome.allOk
    ∧ UPSFileCheck.ups_res_outcome [[some (600, 600)]] = ResOutcome.allOk := by
  constructor <;>
    norm_num [UPSFileCheck.ups_res_outcome, low_res, embedded_dpi_fails,
      dpi_of, List.filter]

/-- C8 amended: in PDF_Check3 an item with zero embedded rasters yields the
informational no-images outcome, distinct from both the pass outcome and the
fail outcome, and the summary does not count the absence of rasters against
passed; in UPS_File_Check the same item is reported with the pass outcome. -/
theorem pdf3_no_raster_info_signal :
    PDFCheck3.pdf3_res_outcome [] = ResOutcome.noImages
    ∧ ResOutcome.noImages ≠ ResOutcome.allOk
    ∧ ResOutcome.noImages ≠ ResOutcome.lowRes
    ∧ (PDFCheck3.pdf3_summary noRasterLetterDoc).resOutcome = ResOutcome.noImages
    ∧ (PDFCheck3.pdf3_summary noRasterLetterDoc).passed = true
    ∧ UPSFileCheck.ups_res_outcome [] = ResOutcome.allOk := by
  refine ⟨by simp [PDFCheck3.pdf3_res_outcome, low_res], by simp, by simp, ?_, ?_,
    by simp [UPSFileCheck.ups_res_outcome, low_res]⟩
  · simp [PDFCheck3.pdf3_summary, PDFCheck3.pdf3_res_outcome, low_res,
      noRasterLetterDoc]
  · norm_num [PDFCheck3.pdf3_summary, PDFCheck3.pdf3_size_ok,
      PDFCheck3.collected_color_names, PDFCheck3.pdf3_invalid_colors,
      PDFCheck3.ACCEPTED_COLOR, low_res, noRasterLetterDoc,
      PDFCheck3.PRINTER_WIDTH, PDFCheck3.PRINTER_HEIGHT]

/-- C10: both variants read only the first page mediabox for the size
verdict: the verdict on a document is unchanged under any replacement of the
pages after the first, and the whole PDF_Check3 analysis is unchanged under
any replacement of the rest-pages component. -/
theorem size_verdict_first_page_only (p : ℚ × ℚ) (rest rest2 : List (ℚ × ℚ))
    (d : PDFCheck3.Pdf3Input) :
    PDFCheck3.pdf3_size_verdict (p :: rest) = PDFCheck3.pdf3_size_verdict (p :: rest2)
    ∧ UPSFileCheck.ups_size_verdict (p :: rest) = UPSFileCheck.ups_size_verdict (p :: rest2)
    ∧ PDFCheck3.analyze_pdf3 { d with restPages := rest } =
        PDFCheck3.analyze_pdf3 { d with restPages := rest2 } :=
  ⟨rfl, rfl, rfl⟩

end PdfChecker
